import Mathlib

/-!
Shallow embedding of `reposter.py`, a webhook relay that buffers SendGrid
events per destination and reposts them in batches.

The embedding mirrors the two stateful classes of the source:

* `Uploader` (one per destination): fields `queue` (pending events),
  `deferred` (whether an outbound `getPage` call is outstanding; in Python
  this field holds the Deferred object or `None`, here a `Bool` records its
  truthiness) and `events_being_sent` (the batch handed to the last
  `getPage` call; the Python attribute does not exist before the first
  `run`, so it is an `Option` that starts as `none`).
* `EventDispatcher`: a dictionary from destination name to `Uploader`,
  modelled as an association list; a missing key raises `KeyError` in
  Python, so dictionary access returns an `Option` and operations that can
  raise return `Option` results (`none` = unhandled exception, no state
  change escapes).

Events are JSON objects; the engine reads only `event`, `email` and the
nested `unique_args.deployment`, so an event is a record of those fields
(the two `.get` defaults of `get_uploader_name` make both levels of the
nesting optional) plus nothing else — the payload is forwarded verbatim.
-/

structure UniqueArgs where
  deployment : Option String
deriving DecidableEq, Repr

structure Event where
  event : String
  email : String
  unique_args : Option UniqueArgs
deriving DecidableEq, Repr

/-- A very small JSON rendering of one event, standing in for what
`json.dumps` produces for the corresponding Python dict. -/
def eventToJson (e : Event) : String :=
  "\x7b\"event\": \"" ++ e.event ++ "\", \"email\": \"" ++ e.email ++ "\""
    ++ (match e.unique_args with
        | none => ""
        | some ua =>
          ", \"unique_args\": \x7b"
            ++ (match ua.deployment with
                | none => ""
                | some d => "\"deployment\": \"" ++ d ++ "\"")
            ++ "\x7d")
    ++ "\x7d"

/-- Model of `json.dumps` applied to a list of events: a single JSON array. -/
def json_dumps (events : List Event) : String :=
  "[" ++ String.intercalate ", " (events.map eventToJson) ++ "]"

/-- The outbound `getPage(url, headers={}, method="POST", postdata=...)`
call made by `Uploader.run`: one POST request to one URL with one body. -/
structure DeliveryAttempt where
  url : String
  method : String
  postdata : String
deriving DecidableEq, Repr

structure Uploader where
  name : String
  url : String
  deferred : Bool
  queue : List Event
  events_being_sent : Option (List Event)
deriving DecidableEq, Repr

/-- Model of `Uploader.__init__(name, url)`. -/
def mkUploader (name url : String) : Uploader :=
  { name := name, url := url, deferred := false, queue := [],
    events_being_sent := none }

namespace Uploader

/-- Model of `Uploader.append`: `self.queue.append(event)`. -/
def append (s : Uploader) (e : Event) : Uploader :=
  { s with queue := s.queue ++ [e] }

/-- Model of `Uploader.run`: returns early if a deferred is outstanding or the queue
is empty; otherwise moves `queue` into `events_being_sent`, clears `queue`
and issues one POST of the JSON-serialised batch to `self.url`.  The
returned `Option DeliveryAttempt` is the outbound call started (if any). -/
def run (s : Uploader) : Uploader × Option DeliveryAttempt :=
  if s.deferred || s.queue.length == 0 then
    (s, none)
  else
    ({ s with queue := [],
              events_being_sent := some s.queue,
              deferred := true },
     some { url := s.url, method := "POST", postdata := json_dumps s.queue })

/-- Model of `Uploader.deferred_callback`: on success, `events_being_sent = []` and
`deferred = None`. -/
def deferred_callback (s : Uploader) : Uploader :=
  { s with events_being_sent := some [], deferred := false }

/-- Model of `Uploader.deferred_errback`: on failure,
`queue = events_being_sent + queue` and `deferred = None`.  Reading
`events_being_sent` before any `run` would raise `AttributeError`, hence
the `Option` result; the errback is only ever invoked as a callback of the
deferred created by `run`, which has set the attribute. -/
def deferred_errback (s : Uploader) : Option Uploader :=
  match s.events_being_sent with
  | none => none
  | some ebs => some { s with queue := ebs ++ s.queue, deferred := false }

end Uploader

/-- Association-list lookup, standing in for Python dict subscription
(`d[k]`, `None` = `KeyError`) and `d.get(k)`. -/
def dictGet {α : Type} (d : List (String × α)) (k : String) : Option α :=
  match d with
  | [] => none
  | (k2, v) :: rest => if k2 = k then some v else dictGet rest k

/-- Association-list update of an existing key (`d[k] = v`). -/
def dictSet {α : Type} (d : List (String × α)) (k : String) (v : α) :
    List (String × α) :=
  match d with
  | [] => []
  | (k2, v2) :: rest =>
    if k2 = k then (k2, v) :: rest else (k2, v2) :: dictSet rest k v

structure EventDispatcher where
  uploaders : List (String × Uploader)
deriving DecidableEq, Repr

namespace EventDispatcher

/-- Model of `EventDispatcher.__init__`: one `Uploader(name, url)` per entry of
`settings.DEPLOYMENT_URLS`. -/
def init (deployment_urls : List (String × String)) : EventDispatcher :=
  { uploaders := deployment_urls.map (fun p => (p.1, mkUploader p.1 p.2)) }

/-- Model of `EventDispatcher.get_uploader_name`:
`event.get('unique_args', {}).get('deployment', 'DEFAULT')`. -/
def get_uploader_name (e : Event) : String :=
  match e.unique_args with
  | none => "DEFAULT"
  | some ua =>
    match ua.deployment with
    | none => "DEFAULT"
    | some d => d

/-- Model of `EventDispatcher.add_event`: resolve the uploader name and run
`self.uploaders[name].append(event)`; a name absent from the dict raises
an unhandled `KeyError` (`none`). -/
def add_event (d : EventDispatcher) (e : Event) : Option EventDispatcher :=
  let name := get_uploader_name e
  match dictGet d.uploaders name with
  | none => none
  | some u =>
    some { uploaders := dictSet d.uploaders name (u.append e) }

end EventDispatcher

/-!
Operational traces of one `Uploader` under the event loop.  The four
operations a destination queue sees are enqueue (`append`), a flush tick
(`run`), and the completion callbacks of the outstanding `getPage` call.
A completion event exists only while a deferred is outstanding, so a
`success`/`failure` op in a state with no deferred set is not a step of
the system; such ops are modelled as no-ops, which keeps every modelled
trace a real trace.  Ghost fields record every event ever enqueued and
every event confirmed delivered.
-/

inductive Op where
  | enqueue : Event → Op
  | tryFlush : Op
  | success : Op
  | failure : Op
deriving DecidableEq, Repr

structure TState where
  up : Uploader
  delivered : List Event
  enqueued : List Event
deriving DecidableEq, Repr

def initTState (name url : String) : TState :=
  { up := mkUploader name url, delivered := [], enqueued := [] }

def stepOp (s : TState) (op : Op) : TState :=
  match op with
  | .enqueue e =>
    { s with up := s.up.append e, enqueued := s.enqueued ++ [e] }
  | .tryFlush =>
    { s with up := (s.up.run).1 }
  | .success =>
    if s.up.deferred then
      match s.up.events_being_sent with
      | some b =>
        { s with up := s.up.deferred_callback, delivered := s.delivered ++ b }
      | none => s
    else s
  | .failure =>
    if s.up.deferred then
      match s.up.deferred_errback with
      | some u => { s with up := u }
      | none => s
    else s

def applyOps (s : TState) : List Op → TState
  | [] => s
  | op :: ops => applyOps (stepOp s op) ops

/-- The batch actively in flight: the contents of `events_being_sent`
while a deferred is outstanding, and empty otherwise (after a failure the
field retains a stale copy of the failed batch, but no attempt is in
flight). -/
def activeInFlight (u : Uploader) : List Event :=
  if u.deferred then u.events_being_sent.getD [] else []

/-- Accounting invariant: as multisets,
delivered + actively-in-flight + pending = everything ever enqueued. -/
def accounted (s : TState) : Prop :=
  (s.delivered : Multiset Event) + (activeInFlight s.up : Multiset Event)
      + (s.up.queue : Multiset Event)
    = (s.enqueued : Multiset Event)

lemma accounted_step (s : TState) (op : Op) (h : accounted s) :
    accounted (stepOp s op) := by
  unfold accounted at h ⊢
  cases op with
  | enqueue e =>
    show (s.delivered : Multiset Event) + (activeInFlight s.up : Multiset Event)
        + ((s.up.queue ++ [e] : List Event) : Multiset Event)
      = ((s.enqueued ++ [e] : List Event) : Multiset Event)
    rw [← Multiset.coe_add, ← Multiset.coe_add, ← add_assoc, h]
  | tryFlush =>
    show (s.delivered : Multiset Event)
        + (activeInFlight (s.up.run).1 : Multiset Event)
        + ((s.up.run).1.queue : Multiset Event)
      = (s.enqueued : Multiset Event)
    unfold Uploader.run
    by_cases hg : (s.up.deferred || s.up.queue.length == 0) = true
    · rw [if_pos hg]
      exact h
    · rw [if_neg hg]
      have hd : s.up.deferred = false := by
        cases hdd : s.up.deferred
        · rfl
        · exact absurd (by rw [hdd, Bool.true_or]) hg
      show (s.delivered : Multiset Event) + (s.up.queue : Multiset Event)
          + (([] : List Event) : Multiset Event) = (s.enqueued : Multiset Event)
      unfold activeInFlight at h
      rw [hd, if_neg Bool.false_ne_true] at h
      rw [Multiset.coe_nil, add_zero] at h ⊢
      exact h
  | success =>
    show accounted (if s.up.deferred = true then _ else s)
    by_cases hd : s.up.deferred = true
    · rw [if_pos hd]
      cases hb : s.up.events_being_sent with
      | none =>
        exact h
      | some b =>
        show ((s.delivered ++ b : List Event) : Multiset Event)
            + (([] : List Event) : Multiset Event)
            + (s.up.queue : Multiset Event) = (s.enqueued : Multiset Event)
        unfold activeInFlight at h
        rw [hd, if_pos rfl, hb] at h
        rw [← Multiset.coe_add, Multiset.coe_nil, add_zero]
        exact h
    · rw [if_neg hd]
      exact h
  | failure =>
    show accounted (if s.up.deferred = true then _ else s)
    by_cases hd : s.up.deferred = true
    · rw [if_pos hd]
      cases hb : s.up.events_being_sent with
      | none =>
        show accounted (match s.up.deferred_errback with
          | some u => { s with up := u } | none => s)
        unfold Uploader.deferred_errback
        rw [hb]
        exact h
      | some b =>
        show accounted (match s.up.deferred_errback with
          | some u => { s with up := u } | none => s)
        unfold Uploader.deferred_errback
        rw [hb]
        show (s.delivered : Multiset Event) + (([] : List Event) : Multiset Event)
            + ((b ++ s.up.queue : List Event) : Multiset Event)
          = (s.enqueued : Multiset Event)
        unfold activeInFlight at h
        rw [hd, if_pos rfl, hb] at h
        rw [Multiset.coe_nil, add_zero, ← Multiset.coe_add, ← add_assoc]
        exact h
    · rw [if_neg hd]
      exact h

lemma accounted_applyOps (ops : List Op) :
    ∀ s : TState, accounted s → accounted (applyOps s ops) := by
  induction ops with
  | nil => intro s h; exact h
  | cons op ops ih =>
    intro s h
    exact ih (stepOp s op) (accounted_step s op h)

/-- Lookup via `dictGet` misses on the uploader dictionary built by
`EventDispatcher.init` exactly where it misses on the configuration. -/
lemma dictGet_map_mk_none (urls : List (String × String)) (k : String)
    (h : dictGet urls k = none) :
    dictGet (urls.map (fun p => (p.1, mkUploader p.1 p.2))) k = none := by
  induction urls with
  | nil => rfl
  | cons p rest ih =>
    simp only [List.map_cons, dictGet] at h ⊢
    by_cases hk : p.1 = k
    · rw [if_pos hk] at h
      exact Option.noConfusion h
    · rw [if_neg hk] at h
      rw [if_neg hk]
      exact ih h

/-! Concrete fixtures used by witnesses and counterexamples. -/

def evA : Event := { event := "open", email := "a@example.com", unique_args := none }

def evB : Event := { event := "click", email := "b@example.com", unique_args := none }

def evC : Event := { event := "bounce", email := "c@example.com", unique_args := none }

/-- An event explicitly tagged for deployment "b". -/
def evTaggedB : Event :=
  { event := "open", email := "t@example.com",
    unique_args := some { deployment := some "b" } }

/-- An event whose `unique_args` dict exists but has no `deployment` key. -/
def evNoDeployment : Event :=
  { event := "open", email := "n@example.com",
    unique_args := some { deployment := none } }

/-- A reachable uploader with one attempt in flight: fresh uploader, one
enqueue, one flush. -/
def uploaderInFlight : Uploader :=
  (((mkUploader "a" "http://a.example/hook").append evA).run).1

/-- An idle uploader carrying a stale `events_being_sent` from an earlier
failed attempt, with a new event pending. -/
def uploaderStale : Uploader :=
  { name := "a", url := "http://a.example/hook", deferred := false,
    queue := [evB], events_being_sent := some [evA] }

def oneDestConfig : List (String × String) := [("a", "http://a.example/hook")]

/-!  Claim theorems. -/

/-- C2: whenever an attempt is in flight (`deferred` is set), `Uploader.run`
returns immediately: the state is unchanged and no new DeliveryAttempt is
started. -/
theorem run_noop_when_inflight (s : Uploader) (h : s.deferred = true) :
    s.run = (s, none) := by
  unfold Uploader.run
  rw [h, Bool.true_or, if_pos rfl]

/-- C2 witness: a reachable in-flight uploader, on which `run` is a no-op. -/
theorem run_noop_when_inflight_witness :
    uploaderInFlight.deferred = true ∧ uploaderInFlight.run = (uploaderInFlight, none) :=
  ⟨rfl, run_noop_when_inflight uploaderInFlight rfl⟩

/-- C8: flushing with an empty pending queue and no attempt in flight is a
no-op: no outbound call, no state change. -/
theorem run_noop_when_empty (s : Uploader) (h1 : s.deferred = false)
    (h2 : s.queue = []) :
    s.run = (s, none) := by
  unfold Uploader.run
  rw [h1, h2]
  rfl

/-- C8 witness: a freshly constructed uploader. -/
theorem run_noop_when_empty_witness :
    (mkUploader "a" "http://a.example/hook").deferred = false ∧
    (mkUploader "a" "http://a.example/hook").queue = [] ∧
    (mkUploader "a" "http://a.example/hook").run = (mkUploader "a" "http://a.example/hook", none) :=
  ⟨rfl, rfl, run_noop_when_empty _ rfl rfl⟩

/-- C5: with non-empty pending and nothing in flight, `run` moves all of
`queue` into `events_being_sent`, leaves `queue` empty, marks an attempt in
flight, and issues exactly one POST of the JSON-array serialisation of that
former pending sequence to the destination's URL. -/
theorem run_flushes_pending (s : Uploader) (h1 : s.deferred = false)
    (h2 : s.queue ≠ []) :
    s.run = ({ s with queue := [], events_being_sent := some s.queue,
                      deferred := true },
             some { url := s.url, method := "POST",
                    postdata := json_dumps s.queue }) := by
  unfold Uploader.run
  have hg : ¬((s.queue.length == 0) = true) := by
    simp only [beq_iff_eq, List.length_eq_zero]
    exact h2
  rw [h1, Bool.false_or, if_neg hg]

/-- C5 witness: one enqueued event is flushed as a singleton batch. -/
theorem run_flushes_pending_witness :
    ((mkUploader "a" "http://a.example/hook").append evA).deferred = false ∧
    ((mkUploader "a" "http://a.example/hook").append evA).queue ≠ [] ∧
    ((mkUploader "a" "http://a.example/hook").append evA).run
      = ({ name := "a", url := "http://a.example/hook", deferred := true,
           queue := [], events_being_sent := some [evA] },
         some { url := "http://a.example/hook", method := "POST",
                postdata := json_dumps [evA] }) :=
  ⟨rfl, by decide, run_flushes_pending _ rfl (by decide)⟩

/-- C9: whatever `events_being_sent` held before (in particular a stale
batch left by a failed attempt), any attempt actually started by `run`
carries exactly the pending queue at the moment `run` ran: the stale field
is overwritten before every send, and the serialized body is that batch. -/
theorem run_sends_exactly_current_pending (s s' : Uploader)
    (att : DeliveryAttempt) (h : s.run = (s', some att)) :
    s'.events_being_sent = some s.queue ∧ s'.queue = [] ∧
      att.postdata = json_dumps s.queue ∧ att.url = s.url := by
  unfold Uploader.run at h
  by_cases hg : (s.deferred || s.queue.length == 0) = true
  · rw [if_pos hg] at h
    exact absurd (congrArg Prod.snd h) (by simp)
  · rw [if_neg hg, Prod.mk.injEq] at h
    obtain ⟨h1, h2⟩ := h
    have h3 := Option.some.inj h2
    refine ⟨?_, ?_, ?_, ?_⟩
    · rw [← h1]
    · rw [← h1]
    · rw [← h3]
    · rw [← h3]

/-- C9 witness: an uploader with a stale `events_being_sent = some [evA]`
still posts exactly its current pending `[evB]`. -/
theorem run_sends_exactly_current_pending_witness :
    uploaderStale.run
      = (uploaderStale.run.1,
         some { url := "http://a.example/hook", method := "POST",
                postdata := json_dumps [evB] }) ∧
    uploaderStale.run.1.events_being_sent = some uploaderStale.queue ∧
    uploaderStale.run.1.queue = [] ∧
    json_dumps [evB] = json_dumps uploaderStale.queue :=
  ⟨rfl,
   (run_sends_exactly_current_pending uploaderStale uploaderStale.run.1
      { url := "http://a.example/hook", method := "POST",
        postdata := json_dumps [evB] } rfl).1,
   (run_sends_exactly_current_pending uploaderStale uploaderStale.run.1
      { url := "http://a.example/hook", method := "POST",
        postdata := json_dumps [evB] } rfl).2.1,
   rfl⟩

/-- C3: `deferred_errback` prepends the failed batch, in its original
order, to the front of `pending`, ahead of events enqueued since the failed
attempt; in particular the scenario enqueue(a), enqueue(b), flush (batch
[a,b]), failure, enqueue(c), flush submits the batch [a,b,c]. -/
theorem retry_ordering (a b c : Event) (name url : String) (s : Uploader)
    (ebs : List Event) (hebs : s.events_being_sent = some ebs) :
    s.deferred_errback
      = some { s with queue := ebs ++ s.queue, deferred := false } ∧
    ((((mkUploader name url).append a).append b).run.1.deferred_errback.map
        (fun s2 => ((s2.append c).run).2))
      = some (some { url := url, method := "POST",
                     postdata := json_dumps [a, b, c] }) := by
  constructor
  · unfold Uploader.deferred_errback
    rw [hebs]
  · rfl

/-- C3 witness: the scenario at concrete events, and the general prepend
discharged on a concrete failed state. -/
theorem retry_ordering_witness :
    uploaderInFlight.events_being_sent = some [evA] ∧
    (uploaderInFlight.deferred_errback
       = some { uploaderInFlight with queue := [evA] ++ uploaderInFlight.queue, deferred := false } ∧
     ((((mkUploader "a" "http://a.example/hook").append evA).append evB).run.1.deferred_errback.map
         (fun s2 => ((s2.append evC).run).2))
       = some (some { url := "http://a.example/hook", method := "POST",
                      postdata := json_dumps [evA, evB, evC] })) :=
  ⟨rfl, retry_ordering evA evB evC "a" "http://a.example/hook"
          uploaderInFlight [evA] rfl⟩

/-- C4 counterexample: on a reachable state with batch [evA] in flight,
`deferred_errback` leaves `events_being_sent` still holding [evA] — it does
not clear the in-flight batch field to empty, so the claim as stated is
false. -/
theorem errback_stale_counterexample :
    uploaderInFlight.deferred = true ∧
    uploaderInFlight.events_being_sent = some [evA] ∧
    uploaderInFlight.deferred_errback.map (fun u => u.events_being_sent)
      = some (some [evA]) ∧
    some ([evA] : List Event) ≠ some [] :=
  ⟨rfl, rfl, rfl, by decide⟩

/-- C4 amended: `deferred_errback` prepends the in-flight batch back onto
`pending` and clears the in-flight marker (`deferred`), so no attempt is in
flight afterwards (the actively-in-flight batch is empty); but the
`events_being_sent` field itself is left unchanged, retaining a stale copy
of the failed batch. -/
theorem errback_requeues_and_clears_marker (s : Uploader) (ebs : List Event)
    (hebs : s.events_being_sent = some ebs) :
    s.deferred_errback
      = some { s with queue := ebs ++ s.queue, deferred := false } ∧
    activeInFlight { s with queue := ebs ++ s.queue, deferred := false } = [] ∧
    ({ s with queue := ebs ++ s.queue, deferred := false } : Uploader).events_being_sent
      = s.events_being_sent := by
  refine ⟨?_, rfl, rfl⟩
  unfold Uploader.deferred_errback
  rw [hebs]

/-- C4 amended witness: discharged on the reachable in-flight state. -/
theorem errback_requeues_and_clears_marker_witness :
    uploaderInFlight.events_being_sent = some [evA] ∧
    (uploaderInFlight.deferred_errback
       = some { uploaderInFlight with queue := [evA] ++ uploaderInFlight.queue, deferred := false } ∧
     activeInFlight { uploaderInFlight with queue := [evA] ++ uploaderInFlight.queue, deferred := false } = [] ∧
     ({ uploaderInFlight with queue := [evA] ++ uploaderInFlight.queue, deferred := false } : Uploader).events_being_sent
       = uploaderInFlight.events_being_sent) :=
  ⟨rfl, errback_requeues_and_clears_marker uploaderInFlight [evA] rfl⟩

/-- C1 counterexample: after enqueue(evA), flush, failure, the undelivered
event evA is simultaneously in `queue` and in the `events_being_sent`
field, so it does not reside in exactly one of
\x7bpending, events_being_sent, delivered\x7d. -/
theorem no_loss_counterexample :
    (applyOps (initTState "a" "http://a.example/hook")
        [Op.enqueue evA, Op.tryFlush, Op.failure]).up.queue = [evA] ∧
    (applyOps (initTState "a" "http://a.example/hook")
        [Op.enqueue evA, Op.tryFlush, Op.failure]).up.events_being_sent
      = some [evA] ∧
    (applyOps (initTState "a" "http://a.example/hook")
        [Op.enqueue evA, Op.tryFlush, Op.failure]).delivered = [] :=
  ⟨rfl, rfl, rfl⟩

/-- C1 amended: for every operation sequence on one destination queue,
counting multiplicities, delivered + actively-in-flight + pending equals
everything ever enqueued — every enqueued event resides in exactly one of
\x7bpending, in-flight batch, delivered-set\x7d when the in-flight batch is
read as `events_being_sent` while an attempt is outstanding (after a
failure the field merely retains a stale copy with no attempt in flight). -/
theorem no_loss_accounting (name url : String) (ops : List Op) :
    accounted (applyOps (initTState name url) ops) := by
  apply accounted_applyOps
  unfold accounted initTState activeInFlight mkUploader
  rfl

/-- C6: an event with no `unique_args` key, or whose `unique_args` has no
`deployment` key, resolves to the sentinel destination name "DEFAULT". -/
theorem default_routing (e : Event)
    (h : e.unique_args = none ∨
         ∃ ua, e.unique_args = some ua ∧ ua.deployment = none) :
    EventDispatcher.get_uploader_name e = "DEFAULT" := by
  unfold EventDispatcher.get_uploader_name
  rcases h with h | ⟨ua, h1, h2⟩
  · rw [h]
  · rw [h1]
    show (match ua.deployment with
          | none => "DEFAULT"
          | some d => d) = "DEFAULT"
    rw [h2]

/-- C6 witness: both default cases at concrete events. -/
theorem default_routing_witness :
    (evA.unique_args = none ∨
      ∃ ua, evA.unique_args = some ua ∧ ua.deployment = none) ∧
    EventDispatcher.get_uploader_name evA = "DEFAULT" ∧
    EventDispatcher.get_uploader_name evNoDeployment = "DEFAULT" :=
  ⟨Or.inl rfl, default_routing evA (Or.inl rfl),
   default_routing evNoDeployment (Or.inr ⟨{ deployment := none }, rfl, rfl⟩)⟩

/-- C7: if the resolved destination tag is absent from the configured
destination→URL mapping, `add_event` raises an unhandled `KeyError`
(`none`), so the event is enqueued nowhere. -/
theorem routing_error_raises (urls : List (String × String)) (e : Event)
    (h : dictGet urls (EventDispatcher.get_uploader_name e) = none) :
    (EventDispatcher.init urls).add_event e = none := by
  simp only [EventDispatcher.add_event, EventDispatcher.init]
  rw [dictGet_map_mk_none urls _ h]

/-- C7 witness: an event tagged for unconfigured deployment "b" against a
configuration with only destination "a". -/
theorem routing_error_raises_witness :
    dictGet oneDestConfig (EventDispatcher.get_uploader_name evTaggedB) = none ∧
    (EventDispatcher.init oneDestConfig).add_event evTaggedB = none :=
  ⟨rfl, routing_error_raises oneDestConfig evTaggedB rfl⟩

/-- C10: "DEFAULT" is only a name: if the configuration lacks the key
"DEFAULT", an event resolving to the default tag makes `add_event` raise
the same unhandled `KeyError` (`none`) as an unconfigured explicit tag. -/
theorem default_is_only_a_name (urls : List (String × String)) (e : Event)
    (h1 : dictGet urls "DEFAULT" = none)
    (h2 : EventDispatcher.get_uploader_name e = "DEFAULT") :
    (EventDispatcher.init urls).add_event e = none := by
  simp only [EventDispatcher.add_event, EventDispatcher.init]
  rw [h2]
  rw [dictGet_map_mk_none urls "DEFAULT" h1]

/-- C10 witness: a one-destination configuration without "DEFAULT" and an
untagged event. -/
theorem default_is_only_a_name_witness :
    dictGet oneDestConfig "DEFAULT" = none ∧
    EventDispatcher.get_uploader_name evA = "DEFAULT" ∧
    (EventDispatcher.init oneDestConfig).add_event evA = none :=
  ⟨rfl, rfl, default_is_only_a_name oneDestConfig evA rfl rfl⟩
